import Mathlib

/-!
# MDS client of curvefs (`curvefs/src/client/mds_client.cpp`)

A shallow embedding of `MdsClientImpl` and of its RPC executor.

* C++ `int` values are mathematical integers; the one arithmetic operation of
  the file, the unary minus of `-cntl->ErrorCode()`, is taken modulo `2^32`
  (`negInt`).
* `CURVEFS_ERROR` is an `enum class` over `int` and `FSStatusCode` a protobuf
  enum: both are represented by their numeric value.  Their enumerators are
  declared in `error_code.h` and `mds.proto`, which are not part of the
  translated file, so their numeric values are parameters (`Decls`).
* The collaborators (`brpc::Channel::Init`, the `MDSBaseClient` stub) are
  parameters acting on an arbitrary collaborator state `σ`.
* Variables captured by reference by a task closure and written by it (the
  caller's `FsInfo`) are passed through the task explicitly.
* `Mem.trace` is a ghost history of the calls made to the collaborators and
  of the invocations of the task; it is only ever appended to.
* `LOG(WARNING)` output is not modelled.
-/

namespace curvefs
namespace client

/-! ## Values -/

/-- Reduction of an integer to the range of a 32 bit C++ `int`. -/
def wrapInt32 (z : Int) : Int :=
  (z + 2147483648) % 4294967296 - 2147483648

/-- Unary minus on `int`, as in `-cntl->ErrorCode()`. -/
def negInt (e : Int) : Int :=
  wrapInt32 (-e)

/-- Client error type `enum class CURVEFS_ERROR`, by numeric value. -/
structure CURVEFS_ERROR where
  val : Int
deriving DecidableEq

/-- Server status type `FSStatusCode` (protobuf enum), by numeric value. -/
structure FSStatusCode where
  val : Int
deriving DecidableEq

/-- Content of the protobuf message `FsInfo`. -/
structure FsInfo where
  content : List Nat
deriving DecidableEq

/-- Content of the protobuf message `Volume`. -/
structure Volume where
  content : List Nat
deriving DecidableEq

/-- Content of the protobuf message `MountPoint`. -/
structure MountPoint where
  content : List Nat
deriving DecidableEq

/-- Enumerators of `CURVEFS_ERROR` used by the client (declared in
`error_code.h`). -/
structure ErrorEnum where
  OK : CURVEFS_ERROR
  FAILED : CURVEFS_ERROR
  UNKNOWN : CURVEFS_ERROR
  NOTEXIST : CURVEFS_ERROR
  INVALIDPARAM : CURVEFS_ERROR

/-- Enumerators of `FSStatusCode` used as `case` labels (declared in
`mds.proto`).  The labels of one `switch` are pairwise distinct. -/
structure StatusEnum where
  OK : FSStatusCode
  NOT_FOUND : FSStatusCode
  PARAM_ERROR : FSStatusCode
  OK_ne_NOT_FOUND : OK ≠ NOT_FOUND
  OK_ne_PARAM_ERROR : OK ≠ PARAM_ERROR
  NOT_FOUND_ne_PARAM_ERROR : NOT_FOUND ≠ PARAM_ERROR

/-- Declarations the translated file takes from its headers: the `errno`
constant `EHOSTDOWN` (a positive `int`) and the two enumerations. -/
structure Decls where
  EHOSTDOWN : Int
  EHOSTDOWN_pos : 0 < EHOSTDOWN
  EHOSTDOWN_lt : EHOSTDOWN < 2147483648
  err : ErrorEnum
  st : StatusEnum

/-! ## Collaborators -/

/-- Configuration `MdsOption`. -/
structure MdsOption where
  mdsaddr : String
  rpcTimeoutMs : Nat
deriving DecidableEq

/-- Observable part of a `brpc::Channel`: the address it was initialised on. -/
structure Channel where
  server : Option String
deriving DecidableEq

/-- Observable part of a `brpc::Controller`. -/
structure Controller where
  timeoutMs : Option Nat
  failed : Bool
  errorCode : Int
  errorText : String
  logId : Nat
deriving DecidableEq

/-- A default constructed `brpc::Channel` (external library), bound to no
address. -/
def Channel.new : Channel :=
  { server := none }

/-- A default constructed `brpc::Controller` (external library), which
reports no failure and has no timeout set. -/
def Controller.new : Controller :=
  { timeoutMs := none, failed := false, errorCode := 0, errorText := "", logId := 0 }

/-- Method `Controller::set_timeout_ms` (external library), which sets the
timeout and nothing else. -/
def Controller.set_timeout_ms (cntl : Controller) (ms : Nat) : Controller :=
  { cntl with timeoutMs := some ms }

/-- Method `Controller::Failed` of the call context (external library). -/
def Controller.Failed (cntl : Controller) : Bool :=
  cntl.failed

/-- Method `Controller::ErrorCode` of the call context (external library). -/
def Controller.ErrorCode (cntl : Controller) : Int :=
  cntl.errorCode

/-- Response container of `CreateFs`. -/
structure CreateFsResponse where
  statuscode : FSStatusCode
deriving DecidableEq

/-- Response container of `DeleteFs`. -/
structure DeleteFsResponse where
  statuscode : FSStatusCode
deriving DecidableEq

/-- Response container of `MountFs`; `fsinfo` is the optional payload
(`has_fsinfo()` is `fsinfo.isSome`). -/
structure MountFsResponse where
  statuscode : FSStatusCode
  fsinfo : Option FsInfo
deriving DecidableEq

/-- Response container of `UmountFs`. -/
structure UmountFsResponse where
  statuscode : FSStatusCode
deriving DecidableEq

/-- Response container of both `GetFsInfo`; `fsinfo` is the optional payload
(`has_fsinfo()` is `fsinfo.isSome`). -/
structure GetFsInfoResponse where
  statuscode : FSStatusCode
  fsinfo : Option FsInfo
deriving DecidableEq

/-- Method `FsInfo::CopyFrom`: after `dst->CopyFrom(src)` the destination
holds the content of `src`. -/
def FsInfo.CopyFrom (_dst : FsInfo) (src : FsInfo) : FsInfo :=
  src

/-- Request handed to the lower-level stub. -/
inductive Request where
  | CreateFs (fsName : String) (blockSize : Nat) (volume : Volume)
  | DeleteFs (fsName : String)
  | MountFs (fsName : String) (mountPt : MountPoint)
  | UmountFs (fsName : String) (mountPt : MountPoint)
  | GetFsInfo (fsName : String)
  | GetFsInfoById (fsId : Nat)
deriving DecidableEq

/-- Ghost history entry. -/
inductive Event where
  | channelInit (addr : String) (ret : Int)
  | task (channel : Channel) (cntl : Controller)
  | stub (req : Request) (channel : Channel) (cntl : Controller)
deriving DecidableEq

/-- Program state outside the client object: the state of the collaborators
and the ghost history. -/
structure Mem (σ : Type) where
  ext : σ
  trace : List Event

/-- Lower-level stub `MDSBaseClient`: each method receives the request
fields, the channel, the call context and a response container that was just
constructed, and leaves a response container and a call context behind.  Its
behaviour is arbitrary. -/
structure MDSBaseClient (σ : Type) where
  CreateFs : String → Nat → Volume → Channel → Controller → σ →
    CreateFsResponse × Controller × σ
  DeleteFs : String → Channel → Controller → σ → DeleteFsResponse × Controller × σ
  MountFs : String → MountPoint → Channel → Controller → σ →
    MountFsResponse × Controller × σ
  UmountFs : String → MountPoint → Channel → Controller → σ →
    UmountFsResponse × Controller × σ
  GetFsInfo : String → Channel → Controller → σ → GetFsInfoResponse × Controller × σ
  GetFsInfoById : Nat → Channel → Controller → σ → GetFsInfoResponse × Controller × σ

/-- Environment of the client: the header declarations and the behaviour of
`brpc::Channel::Init` on an address (`0` is success). -/
structure Env (σ : Type) extends Decls where
  channelInit : String → σ → Int × σ

/-! ## The executor -/

/-- Executor `MdsClientImpl::MDSRPCExcutor`. -/
structure MDSRPCExcutor where
  opt_ : MdsOption
deriving DecidableEq

/-- Modelled from the spec: method `MDSRPCExcutor::SetOption` of
`mds_client.h`, which stores the configuration consumed at initialisation. -/
def MDSRPCExcutor.SetOption (_self : MDSRPCExcutor) (option : MdsOption) : MDSRPCExcutor :=
  { opt_ := option }

/-- Type `RPCFunc`: a task takes the channel and the call context and returns
an `int`; `κ` is the state it captured by reference. -/
abbrev RPCFunc (σ κ : Type) : Type :=
  Channel → Controller → κ × Mem σ → Int × κ × Mem σ

/-- Method `brpc::Channel::Init(addr, nullptr)`. -/
def Channel.Init {σ : Type} (E : Env σ) (self : Channel) (addr : String) (m : Mem σ) :
    Int × Channel × Mem σ :=
  let r := E.channelInit addr m.ext
  (r.1, (if r.1 = 0 then { server := some addr } else self),
    { ext := r.2, trace := m.trace ++ [Event.channelInit addr r.1] })

/-- Method `MDSRPCExcutor::DoRPCTask`. -/
def MDSRPCExcutor.DoRPCTask {σ κ : Type} (E : Env σ) (self : MDSRPCExcutor)
    (task : RPCFunc σ κ) (k : κ) (m : Mem σ) : CURVEFS_ERROR × κ × Mem σ :=
  let channel := Channel.new
  let mdsaddr := self.opt_.mdsaddr
  let r := Channel.Init E channel mdsaddr m
  let ret := r.1
  if ret ≠ 0 then
    (⟨-E.EHOSTDOWN⟩, k, r.2.2)
  else
    let cntl := Controller.new.set_timeout_ms self.opt_.rpcTimeoutMs
    let m1 : Mem σ := { r.2.2 with trace := r.2.2.trace ++ [Event.task r.2.1 cntl] }
    let t := task r.2.1 cntl (k, m1)
    (⟨t.1⟩, t.2)

/-! ## Status translation -/

/-- Method `MdsClientImpl::FSStatusCode2CurveFSErr`; the second argument is
the value of `*retcode` before the call, the result its value after. -/
def FSStatusCode2CurveFSErr (D : Decls) (stcode : FSStatusCode) (_retcode : CURVEFS_ERROR) :
    CURVEFS_ERROR :=
  if stcode = D.st.OK then D.err.OK
  else if stcode = D.st.NOT_FOUND then D.err.NOTEXIST
  else if stcode = D.st.PARAM_ERROR then D.err.INVALIDPARAM
  else D.err.UNKNOWN

/-! ## The client -/

/-- Class `MdsClientImpl`: the executor and the pointer to the stub. -/
structure MdsClientImpl (σ : Type) where
  excutor_ : MDSRPCExcutor
  mdsbasecli_ : MDSBaseClient σ

/-- Method `MdsClientImpl::Init`. -/
def MdsClientImpl.Init {σ : Type} (D : Decls) (self : MdsClientImpl σ) (mdsOpt : MdsOption)
    (baseclient : MDSBaseClient σ) : CURVEFS_ERROR × MdsClientImpl σ :=
  (D.err.OK, { excutor_ := self.excutor_.SetOption mdsOpt, mdsbasecli_ := baseclient })

/-- Method `MdsClientImpl::CreateFs`. -/
def MdsClientImpl.CreateFs {σ : Type} (E : Env σ) (self : MdsClientImpl σ) (fsName : String)
    (blockSize : Nat) (volume : Volume) (m : Mem σ) : CURVEFS_ERROR × Mem σ :=
  let task : RPCFunc σ Unit := fun channel cntl km =>
    let r := self.mdsbasecli_.CreateFs fsName blockSize volume channel cntl km.2.ext
    let response := r.1
    let cntl1 := r.2.1
    let m1 : Mem σ :=
      { ext := r.2.2,
        trace := km.2.trace ++ [Event.stub (Request.CreateFs fsName blockSize volume) channel cntl] }
    if cntl1.Failed then
      (negInt cntl1.ErrorCode, km.1, m1)
    else
      let retcode := E.err.FAILED
      let stcode := response.statuscode
      let retcode := FSStatusCode2CurveFSErr E.toDecls stcode retcode
      (retcode.val, km.1, m1)
  let r := self.excutor_.DoRPCTask E task () m
  (r.1, r.2.2)

/-- Method `MdsClientImpl::DeleteFs`. -/
def MdsClientImpl.DeleteFs {σ : Type} (E : Env σ) (self : MdsClientImpl σ) (fsName : String)
    (m : Mem σ) : CURVEFS_ERROR × Mem σ :=
  let task : RPCFunc σ Unit := fun channel cntl km =>
    let r := self.mdsbasecli_.DeleteFs fsName channel cntl km.2.ext
    let response := r.1
    let cntl1 := r.2.1
    let m1 : Mem σ :=
      { ext := r.2.2,
        trace := km.2.trace ++ [Event.stub (Request.DeleteFs fsName) channel cntl] }
    if cntl1.Failed then
      (negInt cntl1.ErrorCode, km.1, m1)
    else
      let retcode := E.err.FAILED
      let stcode := response.statuscode
      let retcode := FSStatusCode2CurveFSErr E.toDecls stcode retcode
      (retcode.val, km.1, m1)
  let r := self.excutor_.DoRPCTask E task () m
  (r.1, r.2.2)

/-- Method `MdsClientImpl::MountFs`; `fsInfo` is the content of `*fsInfo`
before the call, the second component of the result its content after. -/
def MdsClientImpl.MountFs {σ : Type} (E : Env σ) (self : MdsClientImpl σ) (fsName : String)
    (mountPt : MountPoint) (fsInfo : FsInfo) (m : Mem σ) : CURVEFS_ERROR × FsInfo × Mem σ :=
  let task : RPCFunc σ FsInfo := fun channel cntl km =>
    let r := self.mdsbasecli_.MountFs fsName mountPt channel cntl km.2.ext
    let response := r.1
    let cntl1 := r.2.1
    let m1 : Mem σ :=
      { ext := r.2.2,
        trace := km.2.trace ++ [Event.stub (Request.MountFs fsName mountPt) channel cntl] }
    if cntl1.Failed then
      (negInt cntl1.ErrorCode, km.1, m1)
    else
      let retcode := E.err.FAILED
      let stcode := response.statuscode
      let retcode := FSStatusCode2CurveFSErr E.toDecls stcode retcode
      let fsInfo1 :=
        match response.fsinfo with
        | some payload => km.1.CopyFrom payload
        | none => km.1
      (retcode.val, fsInfo1, m1)
  self.excutor_.DoRPCTask E task fsInfo m

/-- Method `MdsClientImpl::UmountFs`. -/
def MdsClientImpl.UmountFs {σ : Type} (E : Env σ) (self : MdsClientImpl σ) (fsName : String)
    (mountPt : MountPoint) (m : Mem σ) : CURVEFS_ERROR × Mem σ :=
  let task : RPCFunc σ Unit := fun channel cntl km =>
    let r := self.mdsbasecli_.UmountFs fsName mountPt channel cntl km.2.ext
    let response := r.1
    let cntl1 := r.2.1
    let m1 : Mem σ :=
      { ext := r.2.2,
        trace := km.2.trace ++ [Event.stub (Request.UmountFs fsName mountPt) channel cntl] }
    if cntl1.Failed then
      (negInt cntl1.ErrorCode, km.1, m1)
    else
      let retcode := E.err.FAILED
      let stcode := response.statuscode
      let retcode := FSStatusCode2CurveFSErr E.toDecls stcode retcode
      (retcode.val, km.1, m1)
  let r := self.excutor_.DoRPCTask E task () m
  (r.1, r.2.2)

/-- Method `MdsClientImpl::GetFsInfo(const std::string&, FsInfo*)`. -/
def MdsClientImpl.GetFsInfo {σ : Type} (E : Env σ) (self : MdsClientImpl σ) (fsName : String)
    (fsInfo : FsInfo) (m : Mem σ) : CURVEFS_ERROR × FsInfo × Mem σ :=
  let task : RPCFunc σ FsInfo := fun channel cntl km =>
    let r := self.mdsbasecli_.GetFsInfo fsName channel cntl km.2.ext
    let response := r.1
    let cntl1 := r.2.1
    let m1 : Mem σ :=
      { ext := r.2.2,
        trace := km.2.trace ++ [Event.stub (Request.GetFsInfo fsName) channel cntl] }
    if cntl1.Failed then
      (negInt cntl1.ErrorCode, km.1, m1)
    else
      let retcode := E.err.FAILED
      let stcode := response.statuscode
      let retcode := FSStatusCode2CurveFSErr E.toDecls stcode retcode
      let fsInfo1 :=
        match response.fsinfo with
        | some payload => km.1.CopyFrom payload
        | none => km.1
      (retcode.val, fsInfo1, m1)
  self.excutor_.DoRPCTask E task fsInfo m

/-- Method `MdsClientImpl::GetFsInfo(uint32_t, FsInfo*)`. -/
def MdsClientImpl.GetFsInfoById {σ : Type} (E : Env σ) (self : MdsClientImpl σ) (fsId : Nat)
    (fsInfo : FsInfo) (m : Mem σ) : CURVEFS_ERROR × FsInfo × Mem σ :=
  let task : RPCFunc σ FsInfo := fun channel cntl km =>
    let r := self.mdsbasecli_.GetFsInfoById fsId channel cntl km.2.ext
    let response := r.1
    let cntl1 := r.2.1
    let m1 : Mem σ :=
      { ext := r.2.2,
        trace := km.2.trace ++ [Event.stub (Request.GetFsInfoById fsId) channel cntl] }
    if cntl1.Failed then
      (negInt cntl1.ErrorCode, km.1, m1)
    else
      let retcode := E.err.FAILED
      let stcode := response.statuscode
      let retcode := FSStatusCode2CurveFSErr E.toDecls stcode retcode
      let fsInfo1 :=
        match response.fsinfo with
        | some payload => km.1.CopyFrom payload
        | none => km.1
      (retcode.val, fsInfo1, m1)
  self.excutor_.DoRPCTask E task fsInfo m

/-! ## Uniform view of the six operations -/

/-- One of the six operations on the caller's `FsInfo` variable; the three
operations without an `FsInfo*` parameter do not receive it. -/
def MdsClientImpl.call {σ : Type} (E : Env σ) (self : MdsClientImpl σ) (req : Request)
    (fsInfo : FsInfo) (m : Mem σ) : CURVEFS_ERROR × FsInfo × Mem σ :=
  match req with
  | Request.CreateFs fsName blockSize volume =>
      let r := self.CreateFs E fsName blockSize volume m
      (r.1, fsInfo, r.2)
  | Request.DeleteFs fsName =>
      let r := self.DeleteFs E fsName m
      (r.1, fsInfo, r.2)
  | Request.MountFs fsName mountPt => self.MountFs E fsName mountPt fsInfo m
  | Request.UmountFs fsName mountPt =>
      let r := self.UmountFs E fsName mountPt m
      (r.1, fsInfo, r.2)
  | Request.GetFsInfo fsName => self.GetFsInfo E fsName fsInfo m
  | Request.GetFsInfoById fsId => self.GetFsInfoById E fsId fsInfo m

/-- What a stub method leaves behind: the status code and the optional
payload of the response container, the call context, the collaborator state.
The responses of `CreateFs`, `DeleteFs` and `UmountFs` are read for their
status code only and count as carrying no payload. -/
structure Reply (σ : Type) where
  statuscode : FSStatusCode
  fsinfo : Option FsInfo
  cntl : Controller
  ext : σ

/-- Reply of the stub method that serves `req`. -/
def MDSBaseClient.reply {σ : Type} (base : MDSBaseClient σ) (req : Request)
    (channel : Channel) (cntl : Controller) (ext : σ) : Reply σ :=
  match req with
  | Request.CreateFs fsName blockSize volume =>
      let r := base.CreateFs fsName blockSize volume channel cntl ext
      { statuscode := r.1.statuscode, fsinfo := none, cntl := r.2.1, ext := r.2.2 }
  | Request.DeleteFs fsName =>
      let r := base.DeleteFs fsName channel cntl ext
      { statuscode := r.1.statuscode, fsinfo := none, cntl := r.2.1, ext := r.2.2 }
  | Request.MountFs fsName mountPt =>
      let r := base.MountFs fsName mountPt channel cntl ext
      { statuscode := r.1.statuscode, fsinfo := r.1.fsinfo, cntl := r.2.1, ext := r.2.2 }
  | Request.UmountFs fsName mountPt =>
      let r := base.UmountFs fsName mountPt channel cntl ext
      { statuscode := r.1.statuscode, fsinfo := none, cntl := r.2.1, ext := r.2.2 }
  | Request.GetFsInfo fsName =>
      let r := base.GetFsInfo fsName channel cntl ext
      { statuscode := r.1.statuscode, fsinfo := r.1.fsinfo, cntl := r.2.1, ext := r.2.2 }
  | Request.GetFsInfoById fsId =>
      let r := base.GetFsInfoById fsId channel cntl ext
      { statuscode := r.1.statuscode, fsinfo := r.1.fsinfo, cntl := r.2.1, ext := r.2.2 }

/-- Return value of `channel.Init` when an operation of `self` starts in `m`. -/
def MdsClientImpl.initRet {σ : Type} (E : Env σ) (self : MdsClientImpl σ) (m : Mem σ) : Int :=
  (E.channelInit self.excutor_.opt_.mdsaddr m.ext).1

/-- Reply of the stub to `req` when an operation of `self` starts in `m` and
`channel.Init` succeeds: the stub sees the channel bound to the configured
address, a new call context carrying the configured timeout, and the
collaborator state left by `channel.Init`. -/
def MdsClientImpl.stubReply {σ : Type} (E : Env σ) (self : MdsClientImpl σ) (req : Request)
    (m : Mem σ) : Reply σ :=
  self.mdsbasecli_.reply req { server := some self.excutor_.opt_.mdsaddr }
    { timeoutMs := some self.excutor_.opt_.rpcTimeoutMs, failed := false, errorCode := 0,
      errorText := "", logId := 0 }
    (E.channelInit self.excutor_.opt_.mdsaddr m.ext).2

/-- A task that also counts its invocations in a variable of its own. -/
def counted {σ κ : Type} (task : RPCFunc σ κ) : RPCFunc σ (κ × Nat) :=
  fun channel cntl km =>
    let r := task channel cntl (km.1.1, km.2)
    (r.1, (r.2.1, km.1.2 + 1), r.2.2)

/-- History entries recording an invocation of a task. -/
def Event.isTask : Event → Bool
  | Event.task _ _ => true
  | _ => false

/-- History entries recording a call of the stub. -/
def Event.isStub : Event → Bool
  | Event.stub _ _ _ => true
  | _ => false

/-! ## A programmable mock of the collaborators -/

/-- Script of a mocked run: the value `channel.Init` returns, the failure
flag and error code the stub sets on the call context, the status code and
the optional payload it puts in the response. -/
structure Mock where
  initRet : Int
  failed : Bool
  errorCode : Int
  statuscode : FSStatusCode
  fsinfo : Option FsInfo
deriving DecidableEq

/-- One admissible set of header declarations: `EHOSTDOWN = 112`,
`CURVEFS_ERROR` enumerators `OK = 0`, `FAILED = -1`, `UNKNOWN = -2`,
`NOTEXIST = -4`, `INVALIDPARAM = -7`, and `FSStatusCode` enumerators
`OK = 0`, `NOT_FOUND = 3`, `PARAM_ERROR = 4`. -/
def mockDecls : Decls :=
  { EHOSTDOWN := 112
    EHOSTDOWN_pos := by decide
    EHOSTDOWN_lt := by decide
    err := { OK := ⟨0⟩, FAILED := ⟨-1⟩, UNKNOWN := ⟨-2⟩, NOTEXIST := ⟨-4⟩, INVALIDPARAM := ⟨-7⟩ }
    st :=
      { OK := ⟨0⟩, NOT_FOUND := ⟨3⟩, PARAM_ERROR := ⟨4⟩
        OK_ne_NOT_FOUND := by decide
        OK_ne_PARAM_ERROR := by decide
        NOT_FOUND_ne_PARAM_ERROR := by decide } }

/-- Environment in which `channel.Init` returns what the script says. -/
def mockEnv : Env Mock :=
  { toDecls := mockDecls, channelInit := fun _ s => (s.initRet, s) }

/-- Call context after a mocked stub call. -/
def Mock.cntl (s : Mock) (cntl : Controller) : Controller :=
  { cntl with failed := s.failed, errorCode := s.errorCode }

/-- Stub whose every method answers what the script says. -/
def mockStub : MDSBaseClient Mock :=
  { CreateFs := fun _ _ _ _ cntl s => (⟨s.statuscode⟩, s.cntl cntl, s)
    DeleteFs := fun _ _ cntl s => (⟨s.statuscode⟩, s.cntl cntl, s)
    MountFs := fun _ _ _ cntl s => (⟨s.statuscode, s.fsinfo⟩, s.cntl cntl, s)
    UmountFs := fun _ _ _ cntl s => (⟨s.statuscode⟩, s.cntl cntl, s)
    GetFsInfo := fun _ _ cntl s => (⟨s.statuscode, s.fsinfo⟩, s.cntl cntl, s)
    GetFsInfoById := fun _ _ cntl s => (⟨s.statuscode, s.fsinfo⟩, s.cntl cntl, s) }

/-- Client configured for the address `"127.0.0.1:6700"` with a timeout of
`500` ms over the mocked stub. -/
def mockClient : MdsClientImpl Mock :=
  { excutor_ := { opt_ := { mdsaddr := "127.0.0.1:6700", rpcTimeoutMs := 500 } },
    mdsbasecli_ := mockStub }

/-- Start state of a mocked run with an empty history. -/
def Mock.mem (s : Mock) : Mem Mock :=
  { ext := s, trace := [] }

/-- State of the collaborators and history after an operation of `self`
started in `m` whose `channel.Init` failed. -/
def MdsClientImpl.memInitFailed {σ : Type} (E : Env σ) (self : MdsClientImpl σ) (m : Mem σ) :
    Mem σ :=
  { ext := (E.channelInit self.excutor_.opt_.mdsaddr m.ext).2,
    trace := m.trace ++ [Event.channelInit self.excutor_.opt_.mdsaddr (self.initRet E m)] }

/-! ## Sequences of operations -/

/-- A client object, the caller's `FsInfo` variable and the rest of the
program state. -/
structure Sys (σ : Type) where
  self : MdsClientImpl σ
  fsInfo : FsInfo
  mem : Mem σ

/-- One operation on the client of `s`.  No operation assigns a member of
the client object or of its executor. -/
def Sys.step {σ : Type} (E : Env σ) (s : Sys σ) (req : Request) : Sys σ :=
  let r := s.self.call E req s.fsInfo s.mem
  { self := s.self, fsInfo := r.2.1, mem := r.2.2 }

/-- A sequence of operations on the client of `s`, in order. -/
def Sys.run {σ : Type} (E : Env σ) (s : Sys σ) (reqs : List Request) : Sys σ :=
  reqs.foldl (Sys.step E) s

/-- A history entry agrees with the configuration `opt`: the channel was
initialised on `opt.mdsaddr`, and the call context handed to a task and to
the stub is a new one on which only the timeout `opt.rpcTimeoutMs` was set. -/
def Event.conforms (opt : MdsOption) : Event → Prop
  | Event.channelInit addr _ => addr = opt.mdsaddr
  | Event.task channel cntl =>
      channel = { server := some opt.mdsaddr } ∧
        cntl = { timeoutMs := some opt.rpcTimeoutMs, failed := false, errorCode := 0,
                 errorText := "", logId := 0 }
  | Event.stub _ channel cntl =>
      channel = { server := some opt.mdsaddr } ∧
        cntl = { timeoutMs := some opt.rpcTimeoutMs, failed := false, errorCode := 0,
                 errorText := "", logId := 0 }

/-- Agreement of a history entry with a configuration is decidable. -/
instance Event.decidableConforms (opt : MdsOption) (ev : Event) : Decidable (ev.conforms opt) := by
  cases ev <;> unfold Event.conforms <;> infer_instance

/-- History entries recording a `channel.Init`. -/
def Event.isChannelInit : Event → Bool
  | Event.channelInit _ _ => true
  | _ => false

/-- Entries one operation serving `req` adds to the history under the
configuration `opt` when `channel.Init` returns `ret`: the `channel.Init` on
`opt.mdsaddr`, and, when `ret` is `0`, the invocation of the task and the
call of the stub, both on the channel bound to `opt.mdsaddr` and on a new
call context on which only the timeout `opt.rpcTimeoutMs` was set. -/
def MdsOption.entries (opt : MdsOption) (ret : Int) (req : Request) : List Event :=
  Event.channelInit opt.mdsaddr ret ::
    (if ret = 0 then
      [Event.task { server := some opt.mdsaddr }
         { timeoutMs := some opt.rpcTimeoutMs, failed := false, errorCode := 0,
           errorText := "", logId := 0 },
       Event.stub req { server := some opt.mdsaddr }
         { timeoutMs := some opt.rpcTimeoutMs, failed := false, errorCode := 0,
           errorText := "", logId := 0 }]
     else [])

/-- Entries a sequence of operations started in `s` adds to the history
under the configuration `opt`: those of each operation in order, where the
value `channel.Init` returns is read in the state the operation starts in. -/
def Sys.entries {σ : Type} (E : Env σ) (opt : MdsOption) : Sys σ → List Request → List Event
  | _, [] => []
  | s, req :: rest =>
      opt.entries (E.channelInit opt.mdsaddr s.mem.ext).1 req ++
        Sys.entries E opt (Sys.step E s req) rest

/-! ## Status translation (C1) -/

/-- C1: `FSStatusCode2CurveFSErr` is a total function of the status code
alone: whatever `*retcode` held before, it holds `OK` for status `OK`,
`NOTEXIST` for `NOT_FOUND`, `INVALIDPARAM` for `PARAM_ERROR` and `UNKNOWN`
for every other status value. -/
theorem FSStatusCode2CurveFSErr_table (D : Decls) (s : FSStatusCode) (prior : CURVEFS_ERROR) :
    (∀ prior2 : CURVEFS_ERROR,
        FSStatusCode2CurveFSErr D s prior = FSStatusCode2CurveFSErr D s prior2) ∧
      (s = D.st.OK → FSStatusCode2CurveFSErr D s prior = D.err.OK) ∧
      (s = D.st.NOT_FOUND → FSStatusCode2CurveFSErr D s prior = D.err.NOTEXIST) ∧
      (s = D.st.PARAM_ERROR → FSStatusCode2CurveFSErr D s prior = D.err.INVALIDPARAM) ∧
      (s ≠ D.st.OK → s ≠ D.st.NOT_FOUND → s ≠ D.st.PARAM_ERROR →
        FSStatusCode2CurveFSErr D s prior = D.err.UNKNOWN) := by
  refine ⟨fun _ => rfl, ?_, ?_, ?_, ?_⟩
  · intro h
    simp [FSStatusCode2CurveFSErr, h]
  · intro h
    have h1 : D.st.NOT_FOUND ≠ D.st.OK := fun e => D.st.OK_ne_NOT_FOUND e.symm
    simp [FSStatusCode2CurveFSErr, h, h1]
  · intro h
    have h1 : D.st.PARAM_ERROR ≠ D.st.OK := fun e => D.st.OK_ne_PARAM_ERROR e.symm
    have h2 : D.st.PARAM_ERROR ≠ D.st.NOT_FOUND := fun e => D.st.NOT_FOUND_ne_PARAM_ERROR e.symm
    simp [FSStatusCode2CurveFSErr, h, h1, h2]
  · intro h1 h2 h3
    simp [FSStatusCode2CurveFSErr, h1, h2, h3]

/-- C1 at the status value `17`, which is none of the three labels, with
`*retcode` holding `FAILED` before the call. -/
theorem FSStatusCode2CurveFSErr_table_witness :
    FSStatusCode2CurveFSErr mockDecls ⟨17⟩ mockDecls.err.FAILED = mockDecls.err.UNKNOWN :=
  (FSStatusCode2CurveFSErr_table mockDecls ⟨17⟩ mockDecls.err.FAILED).2.2.2.2
    (by decide) (by decide) (by decide)

/-! ## Characterisation of an operation -/

theorem negInt_of_int32 (e : Int) (hlo : -2147483648 < e) (hhi : e < 2147483648) :
    negInt e = -e := by
  unfold negInt wrapInt32
  omega

theorem call_of_initRet_ne_zero {σ : Type} (E : Env σ) (self : MdsClientImpl σ)
    (req : Request) (fsInfo : FsInfo) (m : Mem σ) (h : self.initRet E m ≠ 0) :
    self.call E req fsInfo m = (⟨-E.EHOSTDOWN⟩, fsInfo, self.memInitFailed E m) := by
  unfold MdsClientImpl.initRet at h
  cases req <;>
    simp [MdsClientImpl.call, MdsClientImpl.CreateFs, MdsClientImpl.DeleteFs,
      MdsClientImpl.MountFs, MdsClientImpl.UmountFs, MdsClientImpl.GetFsInfo,
      MdsClientImpl.GetFsInfoById, MDSRPCExcutor.DoRPCTask, Channel.Init, h,
      MdsClientImpl.memInitFailed, MdsClientImpl.initRet]

theorem call_of_initRet_eq_zero {σ : Type} (E : Env σ) (self : MdsClientImpl σ)
    (req : Request) (fsInfo : FsInfo) (m : Mem σ) (h : self.initRet E m = 0) :
    self.call E req fsInfo m =
      ((if (self.stubReply E req m).cntl.Failed = true then
          ⟨negInt (self.stubReply E req m).cntl.ErrorCode⟩
        else FSStatusCode2CurveFSErr E.toDecls (self.stubReply E req m).statuscode E.err.FAILED),
       (if (self.stubReply E req m).cntl.Failed = true then fsInfo
        else (self.stubReply E req m).fsinfo.getD fsInfo),
       { ext := (self.stubReply E req m).ext,
         trace := m.trace ++
           [Event.channelInit self.excutor_.opt_.mdsaddr 0,
            Event.task { server := some self.excutor_.opt_.mdsaddr }
              (Controller.new.set_timeout_ms self.excutor_.opt_.rpcTimeoutMs),
            Event.stub req { server := some self.excutor_.opt_.mdsaddr }
              (Controller.new.set_timeout_ms self.excutor_.opt_.rpcTimeoutMs)] }) := by
  unfold MdsClientImpl.initRet at h
  cases req <;>
    simp only [MdsClientImpl.call, MdsClientImpl.CreateFs, MdsClientImpl.DeleteFs,
      MdsClientImpl.MountFs, MdsClientImpl.UmountFs, MdsClientImpl.GetFsInfo,
      MdsClientImpl.GetFsInfoById, MDSRPCExcutor.DoRPCTask, Channel.Init, h,
      MdsClientImpl.stubReply, MDSBaseClient.reply, Controller.new, Controller.set_timeout_ms,
      Channel.new, FsInfo.CopyFrom] <;>
    (simp only [if_true, ne_eq, not_true_eq_false, if_false, List.append_assoc,
      List.singleton_append]
     split <;> simp_all <;> (try (split <;> simp_all)))

theorem FSStatusCode2CurveFSErr_cases (D : Decls) :
    (∀ prior, FSStatusCode2CurveFSErr D D.st.OK prior = D.err.OK) ∧
      (∀ prior, FSStatusCode2CurveFSErr D D.st.NOT_FOUND prior = D.err.NOTEXIST) ∧
      (∀ prior, FSStatusCode2CurveFSErr D D.st.PARAM_ERROR prior = D.err.INVALIDPARAM) := by
  have h1 : D.st.NOT_FOUND ≠ D.st.OK := fun e => D.st.OK_ne_NOT_FOUND e.symm
  have h2 : D.st.PARAM_ERROR ≠ D.st.OK := fun e => D.st.OK_ne_PARAM_ERROR e.symm
  have h3 : D.st.PARAM_ERROR ≠ D.st.NOT_FOUND := fun e => D.st.NOT_FOUND_ne_PARAM_ERROR e.symm
  refine ⟨?_, ?_, ?_⟩ <;> intro prior <;> simp [FSStatusCode2CurveFSErr, h1, h2, h3]

theorem FSStatusCode2CurveFSErr_fresh (D : Decls) (prior : CURVEFS_ERROR) :
    FSStatusCode2CurveFSErr D
      (FSStatusCode.mk (|D.st.OK.val| + |D.st.NOT_FOUND.val| + |D.st.PARAM_ERROR.val| + 1))
      prior = D.err.UNKNOWN := by
  have a1 := abs_nonneg D.st.OK.val
  have a2 := abs_nonneg D.st.NOT_FOUND.val
  have a3 := abs_nonneg D.st.PARAM_ERROR.val
  have b1 := le_abs_self D.st.OK.val
  have b2 := le_abs_self D.st.NOT_FOUND.val
  have b3 := le_abs_self D.st.PARAM_ERROR.val
  have h1 : FSStatusCode.mk
      (|D.st.OK.val| + |D.st.NOT_FOUND.val| + |D.st.PARAM_ERROR.val| + 1) ≠ D.st.OK := by
    intro h
    have := congrArg FSStatusCode.val h
    simp only at this
    omega
  have h2 : FSStatusCode.mk
      (|D.st.OK.val| + |D.st.NOT_FOUND.val| + |D.st.PARAM_ERROR.val| + 1) ≠ D.st.NOT_FOUND := by
    intro h
    have := congrArg FSStatusCode.val h
    simp only at this
    omega
  have h3 : FSStatusCode.mk
      (|D.st.OK.val| + |D.st.NOT_FOUND.val| + |D.st.PARAM_ERROR.val| + 1) ≠ D.st.PARAM_ERROR := by
    intro h
    have := congrArg FSStatusCode.val h
    simp only at this
    omega
  simp [FSStatusCode2CurveFSErr, h1, h2, h3]

/-! ## Channel initialisation failure (C2) -/

/-- C2: when `channel.Init` on the configured address returns a non-zero
value, each of the six operations returns `-EHOSTDOWN`, leaves the caller's
`FsInfo` as it was, and adds to the history the `channel.Init` call and
nothing else: the task and the stub are invoked zero times. -/
theorem call_initFailed_shortCircuit {σ : Type} (E : Env σ) (self : MdsClientImpl σ)
    (req : Request) (fsInfo : FsInfo) (m : Mem σ) (h : self.initRet E m ≠ 0) :
    (self.call E req fsInfo m).1 = ⟨-E.EHOSTDOWN⟩ ∧
      (self.call E req fsInfo m).2.1 = fsInfo ∧
      (self.call E req fsInfo m).2.2.trace =
        m.trace ++ [Event.channelInit self.excutor_.opt_.mdsaddr (self.initRet E m)] ∧
      (self.call E req fsInfo m).2.2.trace.countP Event.isTask = m.trace.countP Event.isTask ∧
      (self.call E req fsInfo m).2.2.trace.countP Event.isStub = m.trace.countP Event.isStub ∧
      (self.call E req fsInfo m).2.2.ext = (E.channelInit self.excutor_.opt_.mdsaddr m.ext).2 := by
  rw [call_of_initRet_ne_zero E self req fsInfo m h]
  simp [MdsClientImpl.memInitFailed, Event.isTask, Event.isStub]

/-- C2 on the mock: `MountFs` with `channel.Init` returning `-1` returns
`-112`, keeps the caller's `FsInfo` and records the `channel.Init` call only,
although the stub was scripted to answer `OK` with a payload. -/
theorem call_initFailed_shortCircuit_witness :
    (mockClient.call mockEnv (Request.MountFs "fs1" ⟨[1]⟩) ⟨[7]⟩
        (Mock.mem ⟨-1, false, 0, ⟨0⟩, some ⟨[9]⟩⟩)).1 = ⟨-112⟩ ∧
      (mockClient.call mockEnv (Request.MountFs "fs1" ⟨[1]⟩) ⟨[7]⟩
        (Mock.mem ⟨-1, false, 0, ⟨0⟩, some ⟨[9]⟩⟩)).2.1 = ⟨[7]⟩ ∧
      (mockClient.call mockEnv (Request.MountFs "fs1" ⟨[1]⟩) ⟨[7]⟩
        (Mock.mem ⟨-1, false, 0, ⟨0⟩, some ⟨[9]⟩⟩)).2.2.trace =
          [Event.channelInit "127.0.0.1:6700" (-1)] :=
  have h := call_initFailed_shortCircuit mockEnv mockClient (Request.MountFs "fs1" ⟨[1]⟩) ⟨[7]⟩
    (Mock.mem ⟨-1, false, 0, ⟨0⟩, some ⟨[9]⟩⟩) (by decide)
  ⟨h.1, h.2.1, h.2.2.1⟩

/-! ## Transport failure (C3) -/

/-- C3: when `channel.Init` succeeds and the call context reports failure
with error code `e`, `-e` being representable, each of the six operations
returns `-e` and leaves the caller's `FsInfo` as it was, whatever the
response container holds: a client over any other stub that leaves the same
call context behind returns the same value and the same `FsInfo`. -/
theorem call_rpcFailed_negatedCode {σ : Type} (E : Env σ) (self : MdsClientImpl σ)
    (req : Request) (fsInfo : FsInfo) (m : Mem σ) (e : Int)
    (hinit : self.initRet E m = 0)
    (hfail : (self.stubReply E req m).cntl.Failed = true)
    (he : (self.stubReply E req m).cntl.ErrorCode = e)
    (hlo : -2147483648 < e) (hhi : e < 2147483648) :
    (self.call E req fsInfo m).1 = ⟨-e⟩ ∧ (self.call E req fsInfo m).2.1 = fsInfo ∧
      ∀ base2 : MDSBaseClient σ,
        (MdsClientImpl.stubReply E ⟨self.excutor_, base2⟩ req m).cntl =
            (self.stubReply E req m).cntl →
          (MdsClientImpl.call E ⟨self.excutor_, base2⟩ req fsInfo m).1 =
              (self.call E req fsInfo m).1 ∧
            (MdsClientImpl.call E ⟨self.excutor_, base2⟩ req fsInfo m).2.1 =
              (self.call E req fsInfo m).2.1 := by
  refine ⟨?_, ?_, ?_⟩
  · rw [call_of_initRet_eq_zero E self req fsInfo m hinit]
    simp [hfail, he, negInt_of_int32 e hlo hhi]
  · rw [call_of_initRet_eq_zero E self req fsInfo m hinit]
    simp [hfail]
  · intro base2 hc
    have hinit2 : MdsClientImpl.initRet E ⟨self.excutor_, base2⟩ m = 0 := hinit
    rw [call_of_initRet_eq_zero E self req fsInfo m hinit,
      call_of_initRet_eq_zero E ⟨self.excutor_, base2⟩ req fsInfo m hinit2, hc]
    simp [hfail]

/-- C3 on the mock: `MountFs("fs1", mp)` with the call context failed with
code `111` returns `-111` and keeps the caller's `FsInfo`, although the
response holds status `OK` and a payload. -/
theorem call_rpcFailed_negatedCode_witness :
    (mockClient.call mockEnv (Request.MountFs "fs1" ⟨[1]⟩) ⟨[7]⟩
        (Mock.mem ⟨0, true, 111, ⟨0⟩, some ⟨[9]⟩⟩)).1 = ⟨-111⟩ ∧
      (mockClient.call mockEnv (Request.MountFs "fs1" ⟨[1]⟩) ⟨[7]⟩
        (Mock.mem ⟨0, true, 111, ⟨0⟩, some ⟨[9]⟩⟩)).2.1 = ⟨[7]⟩ :=
  have h := call_rpcFailed_negatedCode mockEnv mockClient (Request.MountFs "fs1" ⟨[1]⟩) ⟨[7]⟩
    (Mock.mem ⟨0, true, 111, ⟨0⟩, some ⟨[9]⟩⟩) 111 (by decide) (by decide) (by decide)
    (by decide) (by decide)
  ⟨h.1, h.2.1⟩

/-! ## Application status (C4) -/

/-- C4: when `channel.Init` succeeds and the call context does not report
failure, each of the six operations returns the translation of the response's
status code under `FSStatusCode2CurveFSErr`, whatever `*retcode` held before;
the placeholder `FAILED` is not returned when its value differs from the four
values of the table. -/
theorem call_status_translated {σ : Type} (E : Env σ) (self : MdsClientImpl σ)
    (req : Request) (fsInfo : FsInfo) (m : Mem σ)
    (hinit : self.initRet E m = 0)
    (hok : (self.stubReply E req m).cntl.Failed = false) :
    (∀ prior : CURVEFS_ERROR,
        (self.call E req fsInfo m).1 =
          FSStatusCode2CurveFSErr E.toDecls (self.stubReply E req m).statuscode prior) ∧
      (E.err.FAILED ≠ E.err.OK → E.err.FAILED ≠ E.err.NOTEXIST →
        E.err.FAILED ≠ E.err.INVALIDPARAM → E.err.FAILED ≠ E.err.UNKNOWN →
        (self.call E req fsInfo m).1 ≠ E.err.FAILED) := by
  rw [call_of_initRet_eq_zero E self req fsInfo m hinit]
  simp only [hok, Bool.false_eq_true, if_false]
  refine ⟨fun _ => rfl, ?_⟩
  intro h1 h2 h3 h4
  unfold FSStatusCode2CurveFSErr
  split
  · exact fun h => h1 h.symm
  · split
    · exact fun h => h2 h.symm
    · split
      · exact fun h => h3 h.symm
      · exact fun h => h4 h.symm

/-- C4 on the mock: `CreateFs("fs1", 4096, vol)` with status `OK` returns
`OK`, and `UmountFs("fs1", mp)` with status `PARAM_ERROR` returns
`INVALIDPARAM`. -/
theorem call_status_translated_witness :
    (mockClient.call mockEnv (Request.CreateFs "fs1" 4096 ⟨[2]⟩) ⟨[7]⟩
        (Mock.mem ⟨0, false, 0, mockDecls.st.OK, none⟩)).1 = mockDecls.err.OK ∧
      (mockClient.call mockEnv (Request.UmountFs "fs1" ⟨[1]⟩) ⟨[7]⟩
        (Mock.mem ⟨0, false, 0, mockDecls.st.PARAM_ERROR, none⟩)).1 =
          mockDecls.err.INVALIDPARAM :=
  ⟨(call_status_translated mockEnv mockClient (Request.CreateFs "fs1" 4096 ⟨[2]⟩) ⟨[7]⟩
      (Mock.mem ⟨0, false, 0, mockDecls.st.OK, none⟩) (by decide) (by decide)).1
      mockDecls.err.FAILED,
   (call_status_translated mockEnv mockClient (Request.UmountFs "fs1" ⟨[1]⟩) ⟨[7]⟩
      (Mock.mem ⟨0, false, 0, mockDecls.st.PARAM_ERROR, none⟩) (by decide) (by decide)).1
      mockDecls.err.FAILED⟩

/-! ## The output parameter (C5, C6) -/

/-- C5: for `MountFs` and both `GetFsInfo` (`req` ranges over all six
operations, the other three having no payload), when `channel.Init` succeeds, the
call context does not report failure and the status is `OK`, the operation
returns `OK` and the caller's `FsInfo` afterwards is the payload of the
response if there is one, and is what it was before if there is none. -/
theorem call_ok_fsInfo {σ : Type} (E : Env σ) (self : MdsClientImpl σ)
    (req : Request) (fsInfo : FsInfo) (m : Mem σ)
    (hinit : self.initRet E m = 0)
    (hok : (self.stubReply E req m).cntl.Failed = false)
    (hst : (self.stubReply E req m).statuscode = E.st.OK) :
    (self.call E req fsInfo m).1 = E.err.OK ∧
      (∀ payload : FsInfo, (self.stubReply E req m).fsinfo = some payload →
        (self.call E req fsInfo m).2.1 = payload) ∧
      ((self.stubReply E req m).fsinfo = none → (self.call E req fsInfo m).2.1 = fsInfo) := by
  rw [call_of_initRet_eq_zero E self req fsInfo m hinit]
  simp only [hok, hst, Bool.false_eq_true, if_false]
  refine ⟨?_, ?_, ?_⟩
  · simp [FSStatusCode2CurveFSErr]
  · intro payload hp
    simp [hp]
  · intro hn
    simp [hn]

/-- C5 on the mock: `GetFsInfo` by id with status `OK` and payload `[9]`
leaves the payload in the caller's `FsInfo`, and `MountFs` with status `OK`
and no payload leaves the caller's `FsInfo` as it was. -/
theorem call_ok_fsInfo_witness :
    (mockClient.call mockEnv (Request.GetFsInfoById 3) ⟨[7]⟩
        (Mock.mem ⟨0, false, 0, mockDecls.st.OK, some ⟨[9]⟩⟩)).2.1 = ⟨[9]⟩ ∧
      (mockClient.call mockEnv (Request.MountFs "fs1" ⟨[1]⟩) ⟨[7]⟩
        (Mock.mem ⟨0, false, 0, mockDecls.st.OK, none⟩)).2.1 = ⟨[7]⟩ :=
  ⟨(call_ok_fsInfo mockEnv mockClient (Request.GetFsInfoById 3) ⟨[7]⟩
      (Mock.mem ⟨0, false, 0, mockDecls.st.OK, some ⟨[9]⟩⟩) (by decide) (by decide)
      (by decide)).2.1 ⟨[9]⟩ (by decide),
   (call_ok_fsInfo mockEnv mockClient (Request.MountFs "fs1" ⟨[1]⟩) ⟨[7]⟩
      (Mock.mem ⟨0, false, 0, mockDecls.st.OK, none⟩) (by decide) (by decide)
      (by decide)).2.2 (by decide)⟩

/-- C6 fails as stated: `GetFsInfo("missing")` on a response with status
`NOT_FOUND` that carries the payload `[9]` returns `NOTEXIST` and overwrites
the caller's `FsInfo`, which held `[7]`, with the payload. -/
theorem call_notOk_fsInfo_overwritten :
    (mockClient.stubReply mockEnv (Request.GetFsInfo "missing")
        (Mock.mem ⟨0, false, 0, mockDecls.st.NOT_FOUND, some ⟨[9]⟩⟩)).statuscode
          ≠ mockDecls.st.OK ∧
      (mockClient.call mockEnv (Request.GetFsInfo "missing") ⟨[7]⟩
        (Mock.mem ⟨0, false, 0, mockDecls.st.NOT_FOUND, some ⟨[9]⟩⟩)).1
          = mockDecls.err.NOTEXIST ∧
      (mockClient.call mockEnv (Request.GetFsInfo "missing") ⟨[7]⟩
        (Mock.mem ⟨0, false, 0, mockDecls.st.NOT_FOUND, some ⟨[9]⟩⟩)).2.1 = ⟨[9]⟩ ∧
      (mockClient.call mockEnv (Request.GetFsInfo "missing") ⟨[7]⟩
        (Mock.mem ⟨0, false, 0, mockDecls.st.NOT_FOUND, some ⟨[9]⟩⟩)).2.1 ≠ ⟨[7]⟩ := by
  decide

/-- C6 as amended: for `MountFs` and both `GetFsInfo` (`req` ranges over all
six operations, the other three having no payload), the caller's `FsInfo` is
written only when `channel.Init` succeeds, the call context does not
report failure and the response provides a payload, and then it holds that
payload, whatever the status code; in particular for a status that is not
`OK` it is what it was before when the response has no payload. -/
theorem call_fsInfo_written_iff_payload {σ : Type} (E : Env σ) (self : MdsClientImpl σ)
    (req : Request) (fsInfo : FsInfo) (m : Mem σ) :
    ((self.call E req fsInfo m).2.1 ≠ fsInfo →
        self.initRet E m = 0 ∧ (self.stubReply E req m).cntl.Failed = false ∧
          (self.stubReply E req m).fsinfo = some (self.call E req fsInfo m).2.1) ∧
      (self.initRet E m = 0 → (self.stubReply E req m).cntl.Failed = false →
        ∀ payload : FsInfo, (self.stubReply E req m).fsinfo = some payload →
          (self.call E req fsInfo m).2.1 = payload) ∧
      (self.initRet E m = 0 → (self.stubReply E req m).cntl.Failed = false →
        (self.stubReply E req m).statuscode ≠ E.st.OK →
        (self.stubReply E req m).fsinfo = none →
          (self.call E req fsInfo m).2.1 = fsInfo) := by
  refine ⟨?_, ?_, ?_⟩
  · intro hne
    by_cases hinit : self.initRet E m = 0
    · rw [call_of_initRet_eq_zero E self req fsInfo m hinit] at hne ⊢
      cases hf : (self.stubReply E req m).cntl.Failed
      · simp only [hf, Bool.false_eq_true, if_false] at hne ⊢
        cases hp : (self.stubReply E req m).fsinfo with
        | none => simp [hp] at hne
        | some p => simp [hinit]
      · simp [hf] at hne
    · rw [call_of_initRet_ne_zero E self req fsInfo m hinit] at hne
      exact absurd rfl hne
  · intro hinit hok payload hp
    rw [call_of_initRet_eq_zero E self req fsInfo m hinit]
    simp [hok, hp]
  · intro hinit hok _ hn
    rw [call_of_initRet_eq_zero E self req fsInfo m hinit]
    simp [hok, hn]

/-- C6 as amended, on the mock: `GetFsInfo("missing")` with status
`NOT_FOUND` and no payload leaves the caller's `FsInfo` as it was. -/
theorem call_fsInfo_written_iff_payload_witness :
    (mockClient.call mockEnv (Request.GetFsInfo "missing") ⟨[7]⟩
        (Mock.mem ⟨0, false, 0, mockDecls.st.NOT_FOUND, none⟩)).2.1 = ⟨[7]⟩ :=
  (call_fsInfo_written_iff_payload mockEnv mockClient (Request.GetFsInfo "missing") ⟨[7]⟩
    (Mock.mem ⟨0, false, 0, mockDecls.st.NOT_FOUND, none⟩)).2.2
    (by decide) (by decide) (by decide) (by decide)

/-! ## Transport failure against the status table (C7) -/

/-- C7 fails as stated: with `NOTEXIST = -4`, `MountFs` on a call context
failed with error code `4` returns the same value as `MountFs` on a
response with status `NOT_FOUND`, and with `UNKNOWN = -2` a failure with
code `2` returns the value `UNKNOWN` of the table. -/
theorem call_rpcFailed_collides_with_table :
    (mockClient.call mockEnv (Request.MountFs "fs1" ⟨[1]⟩) ⟨[7]⟩
        (Mock.mem ⟨0, true, 4, mockDecls.st.OK, none⟩)).1 =
      (mockClient.call mockEnv (Request.MountFs "fs1" ⟨[1]⟩) ⟨[7]⟩
        (Mock.mem ⟨0, false, 0, mockDecls.st.NOT_FOUND, none⟩)).1 ∧
      (mockClient.call mockEnv (Request.MountFs "fs1" ⟨[1]⟩) ⟨[7]⟩
        (Mock.mem ⟨0, true, 4, mockDecls.st.OK, none⟩)).1 =
          FSStatusCode2CurveFSErr mockDecls mockDecls.st.NOT_FOUND mockDecls.err.FAILED ∧
      (mockClient.call mockEnv (Request.CreateFs "fs1" 4096 ⟨[2]⟩) ⟨[7]⟩
        (Mock.mem ⟨0, true, 2, mockDecls.st.OK, none⟩)).1 =
          FSStatusCode2CurveFSErr mockDecls ⟨17⟩ mockDecls.err.FAILED := by
  decide

/-- C7 as amended: when `channel.Init` succeeds and the call context reports
failure with error code `e`, `-e` being representable, the operation returns
`-e`, and this value is the table's result for a status `s` exactly when `e`
is the negation of the numeric value of that result; it differs from all
four results of the table exactly when `e` is the negation of none of their
values. -/
theorem call_rpcFailed_vs_table {σ : Type} (E : Env σ) (self : MdsClientImpl σ)
    (req : Request) (fsInfo : FsInfo) (m : Mem σ) (e : Int)
    (hinit : self.initRet E m = 0)
    (hfail : (self.stubReply E req m).cntl.Failed = true)
    (he : (self.stubReply E req m).cntl.ErrorCode = e)
    (hlo : -2147483648 < e) (hhi : e < 2147483648) :
    (∀ (s : FSStatusCode) (prior : CURVEFS_ERROR),
        (self.call E req fsInfo m).1 = FSStatusCode2CurveFSErr E.toDecls s prior ↔
          e = -(FSStatusCode2CurveFSErr E.toDecls s prior).val) ∧
      ((∀ (s : FSStatusCode) (prior : CURVEFS_ERROR),
          (self.call E req fsInfo m).1 ≠ FSStatusCode2CurveFSErr E.toDecls s prior) ↔
        (e ≠ -E.err.OK.val ∧ e ≠ -E.err.NOTEXIST.val ∧ e ≠ -E.err.INVALIDPARAM.val ∧
          e ≠ -E.err.UNKNOWN.val)) := by
  have hval : (self.call E req fsInfo m).1 = ⟨-e⟩ := by
    rw [call_of_initRet_eq_zero E self req fsInfo m hinit]
    simp [hfail, he, negInt_of_int32 e hlo hhi]
  have hiff : ∀ r : CURVEFS_ERROR, (⟨-e⟩ : CURVEFS_ERROR) = r ↔ e = -r.val := by
    intro r
    cases r with
    | mk v =>
      simp only [CURVEFS_ERROR.mk.injEq]
      constructor <;> intro h <;> omega
  rw [hval]
  refine ⟨fun s prior => hiff _, ?_⟩
  constructor
  · intro h
    have t := FSStatusCode2CurveFSErr_cases E.toDecls
    refine ⟨?_, ?_, ?_, ?_⟩
    · intro hc
      exact h E.st.OK E.err.FAILED (by rw [t.1]; exact (hiff _).2 hc)
    · intro hc
      exact h E.st.NOT_FOUND E.err.FAILED (by rw [t.2.1]; exact (hiff _).2 hc)
    · intro hc
      exact h E.st.PARAM_ERROR E.err.FAILED (by rw [t.2.2]; exact (hiff _).2 hc)
    · intro hc
      apply h (FSStatusCode.mk
        (|E.st.OK.val| + |E.st.NOT_FOUND.val| + |E.st.PARAM_ERROR.val| + 1)) E.err.FAILED
      rw [FSStatusCode2CurveFSErr_fresh]
      exact (hiff _).2 hc
  · intro h s prior hc
    have hc2 := (hiff _).1 hc
    unfold FSStatusCode2CurveFSErr at hc2
    split at hc2
    · exact h.1 hc2
    · split at hc2
      · exact h.2.1 hc2
      · split at hc2
        · exact h.2.2.1 hc2
        · exact h.2.2.2 hc2

/-- C7 as amended, on the mock: `MountFs` on a call context failed with
code `111` returns the table's result for `NOT_FOUND`, whose value is `-4`,
exactly when `111 = 4`, that is, it does not. -/
theorem call_rpcFailed_vs_table_witness :
    ((mockClient.call mockEnv (Request.MountFs "fs1" ⟨[1]⟩) ⟨[7]⟩
        (Mock.mem ⟨0, true, 111, ⟨0⟩, some ⟨[9]⟩⟩)).1 =
          FSStatusCode2CurveFSErr mockDecls mockDecls.st.NOT_FOUND mockDecls.err.FAILED ↔
      (111 : Int) =
        -(FSStatusCode2CurveFSErr mockDecls mockDecls.st.NOT_FOUND mockDecls.err.FAILED).val) :=
  (call_rpcFailed_vs_table mockEnv mockClient (Request.MountFs "fs1" ⟨[1]⟩) ⟨[7]⟩
    (Mock.mem ⟨0, true, 111, ⟨0⟩, some ⟨[9]⟩⟩) 111 (by decide) (by decide) (by decide)
    (by decide) (by decide)).1 mockDecls.st.NOT_FOUND mockDecls.err.FAILED

/-! ## The executor invokes the task once (C8) -/

/-- C8: when `channel.Init` succeeds, `DoRPCTask` invokes the task exactly
once, on the channel bound to the configured address, a new call context
with the configured timeout and the state left by `channel.Init`; the value
it returns has the numeric value the task returned and the state it leaves is
the one the task left.  A task that counts its invocations counts one more,
whatever it returns. -/
theorem DoRPCTask_invokes_task_once {σ κ : Type} (E : Env σ) (exc : MDSRPCExcutor)
    (task : RPCFunc σ κ) (k : κ) (n : Nat) (m : Mem σ)
    (hinit : (E.channelInit exc.opt_.mdsaddr m.ext).1 = 0) :
    (exc.DoRPCTask E task k m).1.val =
        (task { server := some exc.opt_.mdsaddr }
          (Controller.new.set_timeout_ms exc.opt_.rpcTimeoutMs)
          (k, { ext := (E.channelInit exc.opt_.mdsaddr m.ext).2,
                trace := m.trace ++ [Event.channelInit exc.opt_.mdsaddr 0,
                  Event.task { server := some exc.opt_.mdsaddr }
                    (Controller.new.set_timeout_ms exc.opt_.rpcTimeoutMs)] })).1 ∧
      (exc.DoRPCTask E task k m).2 =
        (task { server := some exc.opt_.mdsaddr }
          (Controller.new.set_timeout_ms exc.opt_.rpcTimeoutMs)
          (k, { ext := (E.channelInit exc.opt_.mdsaddr m.ext).2,
                trace := m.trace ++ [Event.channelInit exc.opt_.mdsaddr 0,
                  Event.task { server := some exc.opt_.mdsaddr }
                    (Controller.new.set_timeout_ms exc.opt_.rpcTimeoutMs)] })).2 ∧
      (exc.DoRPCTask E (counted task) (k, n) m).2.1.2 = n + 1 ∧
      (exc.DoRPCTask E (counted task) (k, n) m).1 = (exc.DoRPCTask E task k m).1 ∧
      (exc.DoRPCTask E (counted task) (k, n) m).2.1.1 = (exc.DoRPCTask E task k m).2.1 ∧
      (exc.DoRPCTask E (counted task) (k, n) m).2.2 = (exc.DoRPCTask E task k m).2.2 := by
  simp [MDSRPCExcutor.DoRPCTask, Channel.Init, hinit, counted, Channel.new]

/-- C8 on the mock: a task returning `-5` that counts its invocations from
`0` has counted `1` after `DoRPCTask`, which returns the value `-5`. -/
theorem DoRPCTask_invokes_task_once_witness :
    (mockClient.excutor_.DoRPCTask mockEnv
        (counted (fun _ _ (km : Unit × Mem Mock) => ((-5 : Int), km.1, km.2))) ((), 0)
        (Mock.mem ⟨0, false, 0, ⟨0⟩, none⟩)).2.1.2 = 0 + 1 ∧
      (mockClient.excutor_.DoRPCTask mockEnv
        (fun _ _ (km : Unit × Mem Mock) => ((-5 : Int), km.1, km.2)) ()
        (Mock.mem ⟨0, false, 0, ⟨0⟩, none⟩)).1.val = -5 :=
  have h := DoRPCTask_invokes_task_once mockEnv mockClient.excutor_
    (fun _ _ (km : Unit × Mem Mock) => ((-5 : Int), km.1, km.2)) () 0
    (Mock.mem ⟨0, false, 0, ⟨0⟩, none⟩) (by decide)
  ⟨h.2.2.1, h.1⟩

/-! ## Sequences of operations use the stored configuration (C9) -/

theorem step_self {σ : Type} (E : Env σ) (s : Sys σ) (req : Request) :
    (Sys.step E s req).self = s.self := rfl

theorem step_trace {σ : Type} (E : Env σ) (s : Sys σ) (req : Request) :
    (Sys.step E s req).mem.trace =
      s.mem.trace ++
        s.self.excutor_.opt_.entries
          (E.channelInit s.self.excutor_.opt_.mdsaddr s.mem.ext).1 req := by
  by_cases hinit : s.self.initRet E s.mem = 0
  · simp only [Sys.step]
    rw [call_of_initRet_eq_zero E s.self req s.fsInfo s.mem hinit]
    unfold MdsClientImpl.initRet at hinit
    simp [MdsOption.entries, hinit, Controller.new, Controller.set_timeout_ms]
  · simp only [Sys.step]
    rw [call_of_initRet_ne_zero E s.self req s.fsInfo s.mem hinit]
    unfold MdsClientImpl.initRet at hinit
    simp [MdsOption.entries, hinit, MdsClientImpl.memInitFailed, MdsClientImpl.initRet]

theorem run_self_trace {σ : Type} (E : Env σ) (opt : MdsOption) (reqs : List Request) :
    ∀ s : Sys σ, s.self.excutor_.opt_ = opt →
      (Sys.run E s reqs).self = s.self ∧
        (Sys.run E s reqs).mem.trace = s.mem.trace ++ Sys.entries E opt s reqs := by
  induction reqs with
  | nil =>
    intro s _
    exact ⟨rfl, by simp [Sys.run, Sys.entries]⟩
  | cons req rest ih =>
    intro s hs
    obtain ⟨hself, htrace⟩ := ih (Sys.step E s req) (by rw [step_self]; exact hs)
    have hrun : Sys.run E s (req :: rest) = Sys.run E (Sys.step E s req) rest := rfl
    rw [hrun]
    refine ⟨by rw [hself, step_self], ?_⟩
    rw [htrace, step_trace, hs]
    simp [Sys.entries]

theorem entries_conforms (opt : MdsOption) (ret : Int) (req : Request) :
    ∀ ev ∈ opt.entries ret req, ev.conforms opt := by
  intro ev hev
  unfold MdsOption.entries at hev
  by_cases h : ret = 0
  · simp only [h, if_true, List.mem_cons, List.mem_singleton, List.not_mem_nil, or_false] at hev
    rcases hev with h1 | h1 | h1 <;> subst h1 <;> simp [Event.conforms]
  · simp only [h, if_false, List.mem_singleton] at hev
    subst hev
    simp [Event.conforms]

theorem entries_counts (opt : MdsOption) (ret : Int) (req : Request) :
    (opt.entries ret req).countP Event.isChannelInit = 1 ∧
      (opt.entries ret req).countP Event.isTask = (opt.entries ret req).countP Event.isStub := by
  unfold MdsOption.entries
  by_cases h : ret = 0 <;>
    simp [h, List.countP_cons, Event.isChannelInit, Event.isTask, Event.isStub]

theorem sys_entries_facts {σ : Type} (E : Env σ) (opt : MdsOption) (reqs : List Request) :
    ∀ s : Sys σ,
      (∀ ev ∈ Sys.entries E opt s reqs, ev.conforms opt) ∧
        (Sys.entries E opt s reqs).countP Event.isChannelInit = reqs.length ∧
        (Sys.entries E opt s reqs).countP Event.isTask =
          (Sys.entries E opt s reqs).countP Event.isStub := by
  induction reqs with
  | nil =>
    intro s
    simp [Sys.entries]
  | cons req rest ih =>
    intro s
    obtain ⟨h1, h2, h3⟩ := ih (Sys.step E s req)
    obtain ⟨c1, c2⟩ := entries_counts opt (E.channelInit opt.mdsaddr s.mem.ext).1 req
    refine ⟨?_, ?_, ?_⟩
    · intro ev hev
      simp only [Sys.entries] at hev
      rcases List.mem_append.1 hev with h | h
      · exact entries_conforms opt _ req ev h
      · exact h1 ev h
    · simp only [Sys.entries, List.countP_append, c1, h2, List.length_cons]
      omega
    · simp only [Sys.entries, List.countP_append, c2, h3]

/-- C9: `Init` returns `OK` and stores the configuration it is given; after
any sequence of operations on the client it initialised the stored
configuration is still that one, and the history has grown by exactly the
entries `Sys.entries` lists for that configuration: for each operation, in
order, one `channel.Init` on `mdsaddr`, followed, when it returned `0`, by
one invocation of the task and one call of the stub, both on the channel
bound to `mdsaddr` and on a call context that is not failed, has error code
`0`, empty error text and timeout `rpcTimeoutMs`, whatever earlier calls left
behind.  So there is one `channel.Init` per operation, as many stub calls as
task invocations, and every entry agrees with the configuration. -/
theorem run_uses_stored_configuration {σ : Type} (E : Env σ) (self0 : MdsClientImpl σ)
    (mdsOpt : MdsOption) (baseclient : MDSBaseClient σ) (fsInfo : FsInfo) (m : Mem σ)
    (reqs : List Request) :
    (self0.Init E.toDecls mdsOpt baseclient).1 = E.err.OK ∧
      (self0.Init E.toDecls mdsOpt baseclient).2.excutor_.opt_ = mdsOpt ∧
      (Sys.run E ⟨(self0.Init E.toDecls mdsOpt baseclient).2, fsInfo, m⟩ reqs).self.excutor_.opt_
        = mdsOpt ∧
      (Sys.run E ⟨(self0.Init E.toDecls mdsOpt baseclient).2, fsInfo, m⟩ reqs).mem.trace
        = m.trace ++
            Sys.entries E mdsOpt ⟨(self0.Init E.toDecls mdsOpt baseclient).2, fsInfo, m⟩ reqs ∧
      (∀ ev ∈ Sys.entries E mdsOpt ⟨(self0.Init E.toDecls mdsOpt baseclient).2, fsInfo, m⟩ reqs,
        ev.conforms mdsOpt) ∧
      (Sys.entries E mdsOpt ⟨(self0.Init E.toDecls mdsOpt baseclient).2, fsInfo, m⟩
        reqs).countP Event.isChannelInit = reqs.length ∧
      (Sys.entries E mdsOpt ⟨(self0.Init E.toDecls mdsOpt baseclient).2, fsInfo, m⟩
        reqs).countP Event.isTask =
        (Sys.entries E mdsOpt ⟨(self0.Init E.toDecls mdsOpt baseclient).2, fsInfo, m⟩
          reqs).countP Event.isStub := by
  obtain ⟨hself, htrace⟩ :=
    run_self_trace E mdsOpt reqs ⟨(self0.Init E.toDecls mdsOpt baseclient).2, fsInfo, m⟩ rfl
  obtain ⟨h1, h2, h3⟩ :=
    sys_entries_facts E mdsOpt reqs ⟨(self0.Init E.toDecls mdsOpt baseclient).2, fsInfo, m⟩
  refine ⟨rfl, rfl, ?_, htrace, h1, h2, h3⟩
  rw [hself]
  rfl

/-- C9 on the mock: a client initialised for `"10.0.0.1:6700"` with a timeout
of `1000` ms runs `MountFs` and then `GetFsInfo` against a stub that fails
every call context with code `111`.  The history is the six entries below:
the second call context is again a new one, not failed, with timeout `1000`,
and the stored configuration is unchanged. -/
theorem run_uses_stored_configuration_witness :
    (Sys.run mockEnv
        ⟨(mockClient.Init mockDecls ⟨"10.0.0.1:6700", 1000⟩ mockStub).2, ⟨[7]⟩,
          Mock.mem ⟨0, true, 111, ⟨0⟩, none⟩⟩
        [Request.MountFs "fs1" ⟨[1]⟩, Request.GetFsInfo "fs1"]).mem.trace =
      [Event.channelInit "10.0.0.1:6700" 0,
       Event.task ⟨some "10.0.0.1:6700"⟩ ⟨some 1000, false, 0, "", 0⟩,
       Event.stub (Request.MountFs "fs1" ⟨[1]⟩) ⟨some "10.0.0.1:6700"⟩
         ⟨some 1000, false, 0, "", 0⟩,
       Event.channelInit "10.0.0.1:6700" 0,
       Event.task ⟨some "10.0.0.1:6700"⟩ ⟨some 1000, false, 0, "", 0⟩,
       Event.stub (Request.GetFsInfo "fs1") ⟨some "10.0.0.1:6700"⟩
         ⟨some 1000, false, 0, "", 0⟩] ∧
      (Sys.run mockEnv
        ⟨(mockClient.Init mockDecls ⟨"10.0.0.1:6700", 1000⟩ mockStub).2, ⟨[7]⟩,
          Mock.mem ⟨0, true, 111, ⟨0⟩, none⟩⟩
        [Request.MountFs "fs1" ⟨[1]⟩, Request.GetFsInfo "fs1"]).self.excutor_.opt_ =
      ⟨"10.0.0.1:6700", 1000⟩ :=
  have h := run_uses_stored_configuration mockEnv mockClient ⟨"10.0.0.1:6700", 1000⟩ mockStub
    ⟨[7]⟩ (Mock.mem ⟨0, true, 111, ⟨0⟩, none⟩)
    [Request.MountFs "fs1" ⟨[1]⟩, Request.GetFsInfo "fs1"]
  ⟨h.2.2.2.1.trans rfl, h.2.2.1⟩

/-! ## Host down against a transport failure with code `EHOSTDOWN` (C10) -/

/-- C10: for each of the six operations, the value returned when
`channel.Init` fails is the value returned when `channel.Init` succeeds and
the call context reports failure with error code `EHOSTDOWN`: both are
`-EHOSTDOWN`. -/
theorem call_initFailed_eq_rpcFailed_EHOSTDOWN {σ : Type} (E : Env σ)
    (self : MdsClientImpl σ) (req : Request) (fsInfo fsInfo2 : FsInfo) (m m2 : Mem σ)
    (hinit : self.initRet E m ≠ 0)
    (hinit2 : self.initRet E m2 = 0)
    (hfail : (self.stubReply E req m2).cntl.Failed = true)
    (he : (self.stubReply E req m2).cntl.ErrorCode = E.EHOSTDOWN) :
    (self.call E req fsInfo m).1 = (self.call E req fsInfo2 m2).1 ∧
      (self.call E req fsInfo m).1 = ⟨-E.EHOSTDOWN⟩ ∧
      (self.call E req fsInfo2 m2).1 = ⟨-E.EHOSTDOWN⟩ := by
  have hpos := E.EHOSTDOWN_pos
  have hlt := E.EHOSTDOWN_lt
  rw [call_of_initRet_ne_zero E self req fsInfo m hinit,
    call_of_initRet_eq_zero E self req fsInfo2 m2 hinit2]
  simp [hfail, he, negInt_of_int32 E.EHOSTDOWN (by omega) hlt]

/-- C10 on the mock: `CreateFs` returns `-112` both when `channel.Init`
returns `-1` and when the call context is failed with code `112`. -/
theorem call_initFailed_eq_rpcFailed_EHOSTDOWN_witness :
    (mockClient.call mockEnv (Request.CreateFs "fs1" 4096 ⟨[2]⟩) ⟨[7]⟩
        (Mock.mem ⟨-1, false, 0, ⟨0⟩, none⟩)).1 =
      (mockClient.call mockEnv (Request.CreateFs "fs1" 4096 ⟨[2]⟩) ⟨[7]⟩
        (Mock.mem ⟨0, true, 112, ⟨0⟩, none⟩)).1 ∧
      (mockClient.call mockEnv (Request.CreateFs "fs1" 4096 ⟨[2]⟩) ⟨[7]⟩
        (Mock.mem ⟨-1, false, 0, ⟨0⟩, none⟩)).1 = ⟨-112⟩ :=
  have h := call_initFailed_eq_rpcFailed_EHOSTDOWN mockEnv mockClient
    (Request.CreateFs "fs1" 4096 ⟨[2]⟩) ⟨[7]⟩ ⟨[7]⟩ (Mock.mem ⟨-1, false, 0, ⟨0⟩, none⟩)
    (Mock.mem ⟨0, true, 112, ⟨0⟩, none⟩) (by decide) (by decide) (by decide) (by decide)
  ⟨h.1, h.2.1⟩

end client
end curvefs
